import Mathlib

/-!
Verification of the `apple-rs` credential manager
(`apple-search-ads-access-token/src/single.rs` and the three client-secret
signer crates), shallowly embedded in Lean 4.

Time is modelled in nanoseconds (`SystemTime` is a `Nat` count of
nanoseconds since the epoch, `Duration` values are `Nat` nanoseconds),
matching Rust's `std::time::SystemTime` / `core::time::Duration` at full
precision.  Machine-integer arithmetic that can wrap (the `u64`
subtraction inside `get_not_expired_access_token`) is modelled with an
explicit `% 2^64`.  The external collaborators (openssl key parsing, JWT
encoding, the OAuth2 network exchange) are modelled as oracle outcomes
passed in explicitly, since their results are opaque to the manager logic.
-/

deriving instance DecidableEq for Except

namespace AppleRs

/-- Nanoseconds per second, the resolution of `core::time::Duration`. -/
def NANOS : Nat := 1000000000

/-- The modulus of Rust's `u64`. -/
def U64_MOD : Nat := 2 ^ 64

/-- `std::time::SystemTime`, as nanoseconds since the epoch. -/
abbrev SystemTime := Nat

/-- `IssuedAt` alias from `apple-search-ads-access-token/src/lib.rs`. -/
abbrev IssuedAt := SystemTime

/-- `SystemTime::duration_since`: `Ok(now - earlier)` when `earlier <= now`,
`Err(SystemTimeError)` otherwise.  The error case is `none`. -/
def duration_since (now earlier : SystemTime) : Option Nat :=
  if earlier ≤ now then some (now - earlier) else none

/-- `ResponseSuccessfulBody` (the oauth2 client-credentials success body):
`access_token`, optional `expires_in` seconds, optional scope. -/
structure ResponseSuccessfulBody where
  access_token : String
  token_type : String
  expires_in : Option Nat
  scope : Option (List String)
  deriving Repr, DecidableEq

/-- `ClientSecretStorage(Option<(Box<str>, IssuedAt)>)`. -/
structure ClientSecretStorage where
  val : Option (String × IssuedAt)
  deriving Repr, DecidableEq

/-- `AccessTokenStorage(Option<(ResponseSuccessfulBody, IssuedAt)>)`. -/
structure AccessTokenStorage where
  val : Option (ResponseSuccessfulBody × IssuedAt)
  deriving Repr, DecidableEq

/-- The two process-wide static cache slots of `single.rs`
(`CLIENT_SECRET_STORAGE` and `ACCESS_TOKEN_STORAGE`).  In the Rust source
they are `static … : Lazy<ArcSwap<…>>` — one pair per process, not per
`Manager` instance. -/
structure ProcState where
  client_secret_storage : ClientSecretStorage
  access_token_storage : AccessTokenStorage
  deriving Repr, DecidableEq

/-- The `Lazy` defaults: both slots empty (`Option::None`) at first use. -/
def initialState : ProcState :=
  { client_secret_storage := ⟨none⟩, access_token_storage := ⟨none⟩ }

/-- `CLIENT_SECRET_EXP_DUR = Duration::from_secs(60 * 60 * 24 * 7)`,
in seconds. -/
def CLIENT_SECRET_EXP_DUR_SECS : Nat := 60 * 60 * 24 * 7

/-- `get_not_expired_client_secret`: returns the cached client secret iff
one is stored, `now.duration_since(issued_at)` is `Ok(dur)`, and
`dur < CLIENT_SECRET_EXP_DUR - Duration::from_secs(60 * 10)` (a full
`Duration` comparison, hence at nanosecond precision). -/
def get_not_expired_client_secret (now : SystemTime) (s : ProcState) :
    Option String :=
  match s.client_secret_storage.val with
  | some (client_secret, issued_at) =>
    match duration_since now issued_at with
    | some dur =>
      if dur < (CLIENT_SECRET_EXP_DUR_SECS - 60 * 10) * NANOS then
        some client_secret
      else
        none
    | none => none
  | none => none

/-- `get_not_expired_access_token`: with a stored body, if `expires_in` is
absent the body is returned unconditionally; otherwise it is returned iff
`now.duration_since(issued_at)` is `Ok(dur)` and
`dur.as_secs() < (body_expires_in as u64 - 60 * 5)`, where the `u64`
subtraction wraps modulo `2^64` (release-mode semantics) and
`dur.as_secs()` truncates to whole seconds. -/
def get_not_expired_access_token (now : SystemTime) (s : ProcState) :
    Option ResponseSuccessfulBody :=
  match s.access_token_storage.val with
  | some (body, issued_at) =>
    match body.expires_in with
    | some body_expires_in =>
      match duration_since now issued_at with
      | some dur =>
        if dur / NANOS < (body_expires_in % U64_MOD + U64_MOD - 60 * 5) % U64_MOD then
          some body
        else
          none
      | none => none
    | none => some body
  | none => none

/-- `pub struct Manager;` — a unit struct in the source: it owns no state.
The `id` field stands for runtime object identity (each `Manager::new()`
yields a distinct object); no method of the source ever reads `self`, and
the embedding's operations correspondingly ignore it. -/
structure Manager where
  id : Nat
  deriving Repr, DecidableEq

/-- `Manager::new()` — constructs the unit value; starts no background
work and writes neither storage slot. -/
def Manager.new (id : Nat) : Manager := ⟨id⟩

/-- `Manager::set(body, issued_at)`: stores
`AccessTokenStorage(Some((body, issued_at)))` into the process-wide
`ACCESS_TOKEN_STORAGE`. -/
def Manager.set (_self : Manager) (body : ResponseSuccessfulBody)
    (issued_at : IssuedAt) (s : ProcState) : ProcState :=
  { s with access_token_storage := ⟨some (body, issued_at)⟩ }

/-- `Manager::clear()`: stores `AccessTokenStorage(None)` into the
process-wide `ACCESS_TOKEN_STORAGE`. -/
def Manager.clear (_self : Manager) (s : ProcState) : ProcState :=
  { s with access_token_storage := ⟨none⟩ }

/-- `Manager::get_value()`: loads the process-wide `ACCESS_TOKEN_STORAGE`
and maps the stored pair to its `access_token`; no freshness check, no
write, no network. -/
def Manager.get_value (_self : Manager) (s : ProcState) : Option String :=
  s.access_token_storage.val.map (fun p => p.1.access_token)

/-- `ManagerRequestError` from `single.rs`; the payloads of the external
error types are abstracted to strings. -/
inductive ManagerRequestError where
  | ClientSecretCreateFailed (err : String)
  | OauthProviderMakeFailed (msg : String)
  | AccessTokenRequestFailed (err : String)
  deriving Repr, DecidableEq

/-- The oracle outcomes and `SystemTime::now()` readings consumed by one
execution of `Manager::request`:
`secret_check_now` is the clock reading inside
`get_not_expired_client_secret`; `sign_now` the `issued_at` taken just
before `client_secret_create` (line 57); `signer_result` the outcome of
`client_secret_create` (external key parsing / JWT signing);
`provider_result` the outcome of `AppleProviderForSearchAdsApi::new`;
`token_now` the `issued_at` taken before the exchange (line 82); and
`exchange_result` the outcome of `flow.execute`. -/
structure RequestEnv where
  secret_check_now : SystemTime
  sign_now : SystemTime
  signer_result : Except String String
  provider_result : Except String Unit
  token_now : SystemTime
  exchange_result : Except String ResponseSuccessfulBody
  deriving Repr, DecidableEq

/-- The result of one `Manager::request` execution: the returned value or
error, the process state afterwards, and whether `client_secret_create`
(the Signer) was invoked. -/
structure RequestOutcome where
  result : Except ManagerRequestError (ResponseSuccessfulBody × IssuedAt)
  state : ProcState
  signer_invoked : Bool
  deriving Repr, DecidableEq

/-- The tail of `Manager::request` after a client secret is in hand
(lines 75–91): build the provider, run the exchange, and on success store
the body into `ACCESS_TOKEN_STORAGE` and return it. -/
def requestWithSecret (env : RequestEnv) (s : ProcState)
    (_client_secret : String) (invoked : Bool) : RequestOutcome :=
  match env.provider_result with
  | .error e => ⟨.error (.OauthProviderMakeFailed e), s, invoked⟩
  | .ok () =>
    match env.exchange_result with
    | .error e => ⟨.error (.AccessTokenRequestFailed e), s, invoked⟩
    | .ok body =>
      ⟨.ok (body, env.token_now),
       { s with access_token_storage := ⟨some (body, env.token_now)⟩ },
       invoked⟩

/-- `Manager::request` (lines 47–92): reuse a fresh cached client secret
if present; otherwise invoke `client_secret_create` and, on success, store
the new secret with its issue time into `CLIENT_SECRET_STORAGE`; then
build the provider and execute the exchange, storing a successful body
into `ACCESS_TOKEN_STORAGE`. -/
def Manager.request (_self : Manager) (env : RequestEnv) (s : ProcState) :
    RequestOutcome :=
  match get_not_expired_client_secret env.secret_check_now s with
  | some client_secret => requestWithSecret env s client_secret false
  | none =>
    match env.signer_result with
    | .error e => ⟨.error (.ClientSecretCreateFailed e), s, true⟩
    | .ok client_secret =>
      let s1 : ProcState :=
        { s with client_secret_storage := ⟨some (client_secret, env.sign_now)⟩ }
      requestWithSecret env s1 client_secret true

/-- One observable action of a `Manager::run` loop iteration. -/
inductive RunEvent where
  | requestCall
  | callbackInvoke (success : Bool) (timeout_secs : Nat)
  | sleepFor (secs : Nat)
  deriving Repr, DecidableEq

/-- The inputs of one `Manager::run` loop iteration: the clock reading of
the `get_not_expired_access_token` check, the oracle environment of a
(possible) `request` call, and whether the callback future fails to finish
within its timeout (`async_sleep::timeout` returning `Err`). -/
structure IterEnv where
  check_now : SystemTime
  req : RequestEnv
  cb_timed_out : Bool
  deriving Repr, DecidableEq

/-- The `timeout::<SLEEP, _>(…, request_callback(…))` expression: `none`
when the callback overruns the bound.  Its value is bound to `_` in the
source and discarded. -/
def timeoutResult (timed_out : Bool) : Option Unit :=
  if timed_out then none else some ()

/-- One iteration of the `loop` in `Manager::run` (lines 109–142): if the
token cache is fresh, sleep 3 minutes and re-check; otherwise run
`request`; on `Ok` invoke the callback under a 6 s timeout (result
discarded) and sleep 3 minutes; on `Err` invoke the callback under a 3 s
timeout (result discarded) and sleep 5 s.  Every branch ends in `continue`:
the function always yields a successor state. -/
def Manager.runStep (self : Manager) (env : IterEnv) (s : ProcState) :
    ProcState × List RunEvent :=
  if (get_not_expired_access_token env.check_now s).isSome then
    (s, [.sleepFor (60 * 3)])
  else
    let out := self.request env.req s
    match out.result with
    | .ok _ =>
      let _ := timeoutResult env.cb_timed_out
      (out.state, [.requestCall, .callbackInvoke true 6, .sleepFor (60 * 3)])
    | .error _ =>
      let _ := timeoutResult env.cb_timed_out
      (out.state, [.requestCall, .callbackInvoke false 3, .sleepFor 5])

/-- The state after `n` iterations of `Manager::run`, driven by a stream
of per-iteration environments; total for every `n` — the loop has no exit. -/
def Manager.runTrace (self : Manager) (envs : Nat → IterEnv)
    (s : ProcState) : Nat → ProcState
  | 0 => s
  | n + 1 => (self.runStep (envs n) (self.runTrace envs s n)).1

/-- The events emitted by the `n`-th iteration of `Manager::run`. -/
def Manager.runEvents (self : Manager) (envs : Nat → IterEnv)
    (s : ProcState) (n : Nat) : List RunEvent :=
  (self.runStep (envs n) (self.runTrace envs s n)).2

section Signers

/-- `apple-search-ads-client-secret`: 180 days. -/
def searchAds.EXPIRATION_TIME_DURATION_SECONDS_MAX : Nat := 86400 * 180

/-- `apple-app-store-connect-api-token`: 6 days. -/
def appStoreConnect.EXPIRATION_TIME_DURATION_SECONDS_MAX : Nat :=
  60 * 60 * 24 * 6

/-- `apple-app-store-connect-api-token`: default 20 minutes. -/
def appStoreConnect.EXPIRATION_TIME_DURATION_SECONDS_MAX_FOR_MOST_REQUESTS :
    Nat := 60 * 20

/-- `apple-siwa-client-secret`: 6 months. -/
def siwa.EXPIRATION_TIME_DURATION_SECONDS_MAX : Nat := 15777000

/-- JWT claims of the Search Ads / SIWA client secrets
(`iss`/`iat`/`exp`/`aud`/`sub`); `iat` and `exp` are epoch seconds
(`chrono` serialized with `ts_seconds`). -/
structure SubClaims where
  iss : String
  iat : Int
  exp : Int
  aud : String
  sub : String
  deriving Repr, DecidableEq

/-- JWT claims of the App Store Connect API token
(`iss`/`iat`/`exp`/`aud`/`scope`). -/
structure ScopeClaims where
  iss : String
  iat : Int
  exp : Int
  aud : String
  scope : Option (List String)
  deriving Repr, DecidableEq

/-- The shared expiration-duration policy of all three `create` functions
(e.g. `apple-search-ads-client-secret/src/lib.rs` lines 61–66): default
the requested duration when absent, then clamp it to the family cap —
`if expiration_time_dur.as_secs() > MAX { expiration_time_dur = MAX }` —
never reject.  Durations are whole seconds. -/
def clampExpirationDur (max_secs default_secs : Nat)
    (requested : Option Nat) : Nat :=
  let dur := requested.getD default_secs
  if dur > max_secs then max_secs else dur

/-- `apple_search_ads_client_secret::create`, claims stage: the external
key-parsing and JWT-encoding outcomes are oracles (`key_result`,
`encode_ok`); the function errs only from those, and otherwise produces
claims with `exp = iat + min(requested, 180 days)` and
`aud = "https://appleid.apple.com"`. -/
def searchAds.create (key_result : Except String Unit) (encode_ok : Bool)
    (team_id client_id : String) (issued_at : Int)
    (expiration_time_dur : Option Nat) : Except String SubClaims :=
  match key_result with
  | .error e => .error e
  | .ok () =>
    let dur := clampExpirationDur searchAds.EXPIRATION_TIME_DURATION_SECONDS_MAX
      searchAds.EXPIRATION_TIME_DURATION_SECONDS_MAX expiration_time_dur
    let claims : SubClaims :=
      { iss := team_id, iat := issued_at, exp := issued_at + dur,
        aud := "https://appleid.apple.com", sub := client_id }
    if encode_ok then .ok claims else .error "EncodeFailed"

/-- `apple_app_store_connect_api_token::create`, claims stage: errs only
from the key/encode oracles; otherwise
`exp = iat + min(requested, 6 days)` (default 20 minutes) and
`aud = "appstoreconnect-v1"`. -/
def appStoreConnect.create (key_result : Except String Unit)
    (encode_ok : Bool) (issuer_id : String) (scope : Option (List String))
    (issued_at : Int) (expiration_time_dur : Option Nat) :
    Except String ScopeClaims :=
  match key_result with
  | .error e => .error e
  | .ok () =>
    let dur := clampExpirationDur
      appStoreConnect.EXPIRATION_TIME_DURATION_SECONDS_MAX
      appStoreConnect.EXPIRATION_TIME_DURATION_SECONDS_MAX_FOR_MOST_REQUESTS
      expiration_time_dur
    let claims : ScopeClaims :=
      { iss := issuer_id, iat := issued_at, exp := issued_at + dur,
        aud := "appstoreconnect-v1", scope := scope }
    if encode_ok then .ok claims else .error "EncodeFailed"

/-- `apple_siwa_client_secret::create`, claims stage: errs only from the
key/sign oracles; otherwise `exp = iat + min(requested, 15777000 s)` and
`aud = "https://appleid.apple.com"`. -/
def siwa.create (key_result : Except String Unit) (sign_ok : Bool)
    (team_id client_id : String) (issued_at : Int)
    (expiration_time_dur : Option Nat) : Except String SubClaims :=
  match key_result with
  | .error e => .error e
  | .ok () =>
    let dur := clampExpirationDur siwa.EXPIRATION_TIME_DURATION_SECONDS_MAX
      siwa.EXPIRATION_TIME_DURATION_SECONDS_MAX expiration_time_dur
    let claims : SubClaims :=
      { iss := team_id, iat := issued_at, exp := issued_at + dur,
        aud := "https://appleid.apple.com", sub := client_id }
    if sign_ok then .ok claims else .error "TokenSignFailed"

end Signers

/-! ## Helper lemmas -/

theorem NANOS_pos : 0 < NANOS := by norm_num [NANOS]

theorem duration_since_of_le {now e : SystemTime} (h : e ≤ now) :
    duration_since now e = some (now - e) := by
  simp [duration_since, h]

theorem duration_since_of_gt {now e : SystemTime} (h : now < e) :
    duration_since now e = none := by
  unfold duration_since
  rw [if_neg (Nat.not_le.mpr h)]

/-- For `300 ≤ e < 2^64` the wrapping `u64` subtraction `e - 300` is the
ordinary one. -/
theorem wrap_sub_of_ge {e : Nat} (h3 : 300 ≤ e) (hU : e < U64_MOD) :
    (e % U64_MOD + U64_MOD - 60 * 5) % U64_MOD = e - 300 := by
  rw [Nat.mod_eq_of_lt hU]
  rw [show e + U64_MOD - 60 * 5 = (e - 300) + U64_MOD by omega]
  rw [Nat.add_mod_right, Nat.mod_eq_of_lt (by omega)]

/-- For `e < 300` the wrapping `u64` subtraction `e - 300` wraps to
`2^64 - (300 - e)`. -/
theorem wrap_sub_of_lt {e : Nat} (hlt : e < 300) :
    (e % U64_MOD + U64_MOD - 60 * 5) % U64_MOD = U64_MOD - (300 - e) := by
  have hU : (300 : Nat) < U64_MOD := by norm_num [U64_MOD]
  rw [Nat.mod_eq_of_lt (show e < U64_MOD by omega)]
  rw [show e + U64_MOD - 60 * 5 = U64_MOD - (300 - e) by omega]
  rw [Nat.mod_eq_of_lt (show U64_MOD - (300 - e) < U64_MOD by omega)]

/-! ## Claim theorems: freshness predicates -/

/-- **C3.** The token freshness predicate holds exactly when either
`expires_in` is absent (fresh forever until `clear`), or
`now - issued_at < expires_in - 300` seconds; concretely, a token with
`expires_in = 3600` published at `t0` is fresh at `t0 + 3000 s` and stale
at `t0 + 3400 s`. -/
theorem token_freshness_spec
    (m : Manager) (body : ResponseSuccessfulBody)
    (issued_at now : SystemTime) (s : ProcState)
    (hstore : s.access_token_storage.val = some (body, issued_at))
    (hle : issued_at ≤ now) :
    (body.expires_in = none → get_not_expired_access_token now s = some body) ∧
    (∀ e, body.expires_in = some e → 300 ≤ e → e < U64_MOD →
      (get_not_expired_access_token now s = some body ↔
        now - issued_at < (e - 300) * NANOS)) ∧
    (∀ (t0 : SystemTime) (b : ResponseSuccessfulBody) (st : ProcState),
      b.expires_in = some 3600 →
      get_not_expired_access_token (t0 + 3000 * NANOS) (m.set b t0 st) = some b ∧
      get_not_expired_access_token (t0 + 3400 * NANOS) (m.set b t0 st) = none) := by
  refine ⟨?_, ?_, ?_⟩
  · intro hnone
    simp [get_not_expired_access_token, hstore, hnone]
  · intro e he h3 hU
    have hdiv : (now - issued_at) / NANOS < e - 300 ↔
        now - issued_at < (e - 300) * NANOS :=
      Nat.div_lt_iff_lt_mul NANOS_pos
    simp only [get_not_expired_access_token, hstore, he,
      duration_since_of_le hle, wrap_sub_of_ge h3 hU]
    split_ifs with hc
    · exact iff_of_true rfl (hdiv.mp hc)
    · exact iff_of_false (by simp) (fun h => hc (hdiv.mpr h))
  · intro t0 b st hb
    have h1 : t0 ≤ t0 + 3000 * NANOS := Nat.le_add_right _ _
    have h2 : t0 ≤ t0 + 3400 * NANOS := Nat.le_add_right _ _
    have hw : (3600 % U64_MOD + U64_MOD - 60 * 5) % U64_MOD = 3300 :=
      wrap_sub_of_ge (by norm_num) (by norm_num [U64_MOD])
    constructor
    · simp only [get_not_expired_access_token, Manager.set, hb,
        duration_since_of_le h1, Nat.add_sub_cancel_left, hw,
        Nat.mul_div_cancel 3000 NANOS_pos]
      rw [if_pos (by norm_num)]
    · simp only [get_not_expired_access_token, Manager.set, hb,
        duration_since_of_le h2, Nat.add_sub_cancel_left, hw,
        Nat.mul_div_cancel 3400 NANOS_pos]
      rw [if_neg (by norm_num)]

/-- **C3 witness.** Instantiates `token_freshness_spec` on a concrete
token record with `expires_in = 3600` stored at time `0` and checked at
`3000 s`. -/
theorem token_freshness_spec_witness :
    get_not_expired_access_token (3000 * NANOS)
      ⟨⟨none⟩, ⟨some (⟨"tok", "Bearer", some 3600, none⟩, 0)⟩⟩ =
      some ⟨"tok", "Bearer", some 3600, none⟩ := by
  have h := (token_freshness_spec (Manager.new 0)
    ⟨"tok", "Bearer", some 3600, none⟩ 0 (3000 * NANOS)
    ⟨⟨none⟩, ⟨some (⟨"tok", "Bearer", some 3600, none⟩, 0)⟩⟩
    rfl (Nat.zero_le _)).2.1 3600 rfl (by norm_num) (by norm_num [U64_MOD])
  exact h.mpr (by norm_num [NANOS])

/-- **C4.** The assertion freshness predicate holds exactly when
`now - issued_at < 7 days - 600 s`; concretely, an assertion aged
`7 d - 500 s` is absent and one aged `7 d - 700 s` is present. -/
theorem assertion_freshness_spec
    (secret : String) (issued_at now : SystemTime) (s : ProcState)
    (hstore : s.client_secret_storage.val = some (secret, issued_at))
    (hle : issued_at ≤ now) :
    (get_not_expired_client_secret now s = some secret ↔
      now - issued_at < (CLIENT_SECRET_EXP_DUR_SECS - 600) * NANOS) ∧
    (∀ (t0 : SystemTime) (sec : String),
      get_not_expired_client_secret (t0 + (604800 - 500) * NANOS)
        ⟨⟨some (sec, t0)⟩, ⟨none⟩⟩ = none ∧
      get_not_expired_client_secret (t0 + (604800 - 700) * NANOS)
        ⟨⟨some (sec, t0)⟩, ⟨none⟩⟩ = some sec) := by
  have hc1 : CLIENT_SECRET_EXP_DUR_SECS - 60 * 10 = 604200 := by
    norm_num [CLIENT_SECRET_EXP_DUR_SECS]
  have hc2 : CLIENT_SECRET_EXP_DUR_SECS - 600 = 604200 := by
    norm_num [CLIENT_SECRET_EXP_DUR_SECS]
  constructor
  · simp only [get_not_expired_client_secret, hstore, duration_since_of_le hle,
      hc1, hc2]
    split_ifs with hc
    · exact iff_of_true rfl hc
    · exact iff_of_false (by simp) hc
  · intro t0 sec
    constructor
    · simp only [get_not_expired_client_secret,
        duration_since_of_le (Nat.le_add_right t0 _), Nat.add_sub_cancel_left,
        hc1]
      rw [if_neg (by norm_num [NANOS])]
    · simp only [get_not_expired_client_secret,
        duration_since_of_le (Nat.le_add_right t0 _), Nat.add_sub_cancel_left,
        hc1]
      rw [if_pos (by norm_num [NANOS])]

/-- **C4 witness.** Instantiates `assertion_freshness_spec` on a concrete
assertion stored at time `0` and checked after `7 d - 700 s`. -/
theorem assertion_freshness_spec_witness :
    get_not_expired_client_secret ((604800 - 700) * NANOS)
      ⟨⟨some ("sec", 0)⟩, ⟨none⟩⟩ = some "sec" := by
  have h := (assertion_freshness_spec "sec" 0 ((604800 - 700) * NANOS)
    ⟨⟨some ("sec", 0)⟩, ⟨none⟩⟩ rfl (Nat.zero_le _)).1
  exact h.mpr (by norm_num [CLIENT_SECRET_EXP_DUR_SECS, NANOS])

/-- A token record with no `expires_in`, for the clock-anomaly analysis. -/
def foreverBody : ResponseSuccessfulBody :=
  { access_token := "tok", token_type := "Bearer", expires_in := none,
    scope := none }

/-- A state holding `foreverBody` issued at time `10` (in the future
relative to a check at time `0`). -/
def futureIssuedState : ProcState :=
  ⟨⟨none⟩, ⟨some (foreverBody, 10)⟩⟩

/-- **C8 counterexample.** A token cache entry whose `issued_at` (10) lies
in the future relative to `now` (0) but whose `expires_in` is absent is
returned by the token freshness query — not absent, as the claim states
for every future-issued entry: `get_not_expired_access_token` never reads
the clock when `expires_in` is `None`. -/
theorem clock_anomaly_counterexample :
    (0 : SystemTime) < 10 ∧
    futureIssuedState.access_token_storage.val = some (foreverBody, 10) ∧
    get_not_expired_access_token 0 futureIssuedState ≠ none := by
  refine ⟨by norm_num, rfl, ?_⟩
  simp [get_not_expired_access_token, futureIssuedState, foreverBody]

/-- **C8 (amended).** For every cache entry whose `issued_at` lies in the
future relative to `now`, the assertion freshness query returns absent,
and the token freshness query returns absent whenever the entry carries an
`expires_in` (an entry without `expires_in` is returned regardless of the
clock); neither query errors — `duration_since`'s error case is handled as
not-fresh. -/
theorem clock_anomaly_not_fresh (now : SystemTime) (s : ProcState) :
    (∀ sec iat, s.client_secret_storage.val = some (sec, iat) → now < iat →
      get_not_expired_client_secret now s = none) ∧
    (∀ b iat e, s.access_token_storage.val = some (b, iat) →
      b.expires_in = some e → now < iat →
      get_not_expired_access_token now s = none) := by
  constructor
  · intro sec iat hstore hlt
    simp only [get_not_expired_client_secret, hstore,
      duration_since_of_gt hlt]
  · intro b iat e hstore he hlt
    simp only [get_not_expired_access_token, hstore, he,
      duration_since_of_gt hlt]

/-- **C8 witness.** Instantiates `clock_anomaly_not_fresh` at `now = 0`
with both slots issued at time `10`. -/
theorem clock_anomaly_not_fresh_witness :
    get_not_expired_client_secret 0
      ⟨⟨some ("sec", 10)⟩, ⟨some (⟨"tok", "Bearer", some 3600, none⟩, 10)⟩⟩ = none ∧
    get_not_expired_access_token 0
      ⟨⟨some ("sec", 10)⟩, ⟨some (⟨"tok", "Bearer", some 3600, none⟩, 10)⟩⟩ = none := by
  have h := clock_anomaly_not_fresh 0
    ⟨⟨some ("sec", 10)⟩, ⟨some (⟨"tok", "Bearer", some 3600, none⟩, 10)⟩⟩
  exact ⟨h.1 "sec" 10 rfl (by norm_num),
         h.2 ⟨"tok", "Bearer", some 3600, none⟩ 10 3600 rfl rfl (by norm_num)⟩

/-- **C10.** A token record stored with `expires_in` present and strictly
below the 300 s margin is reported fresh at every realizable later time:
the `u64` subtraction `expires_in - 300` wraps modulo `2^64`, so the
comparison `elapsed_secs < expires_in - 300` always holds. -/
theorem token_small_expires_in_always_fresh
    (body : ResponseSuccessfulBody) (e : Nat) (issued_at now : SystemTime)
    (s : ProcState)
    (hstore : s.access_token_storage.val = some (body, issued_at))
    (he : body.expires_in = some e) (hlt : e < 300)
    (hle : issued_at ≤ now)
    (hreal : (now - issued_at) / NANOS < U64_MOD - 300) :
    get_not_expired_access_token now s = some body := by
  simp only [get_not_expired_access_token, hstore, he,
    duration_since_of_le hle, wrap_sub_of_lt hlt]
  rw [if_pos (lt_of_lt_of_le hreal
    (Nat.sub_le_sub_left (show 300 - e ≤ 300 by omega) U64_MOD))]

/-- **C10 witness.** A token with `expires_in = 200` issued at time `0` is
still reported fresh `10^6` seconds later (far beyond its nominal
200-second life). -/
theorem token_small_expires_in_always_fresh_witness :
    get_not_expired_access_token (1000000 * NANOS)
      ⟨⟨none⟩, ⟨some (⟨"tok", "Bearer", some 200, none⟩, 0)⟩⟩ =
      some ⟨"tok", "Bearer", some 200, none⟩ := by
  refine token_small_expires_in_always_fresh
    ⟨"tok", "Bearer", some 200, none⟩ 200 0 (1000000 * NANOS)
    ⟨⟨none⟩, ⟨some (⟨"tok", "Bearer", some 200, none⟩, 0)⟩⟩
    rfl rfl (by norm_num) (Nat.zero_le _) ?_
  rw [Nat.sub_zero, Nat.mul_div_cancel 1000000 NANOS_pos]
  norm_num [U64_MOD]

/-! ## Characterization of `Manager.request` -/

/-- `request` invokes the Signer exactly when no fresh client secret is
cached at the check time. -/
theorem request_signer_invoked_iff (m : Manager) (env : RequestEnv)
    (s : ProcState) :
    (m.request env s).signer_invoked =
      (get_not_expired_client_secret env.secret_check_now s).isNone := by
  obtain ⟨chk, sgnow, sres, pres, tnow, xres⟩ := env
  rcases hsec : get_not_expired_client_secret chk s with _ | sec <;>
    rcases sres with e | sec2 <;> rcases pres with e2 | u <;>
    rcases xres with e3 | body <;>
      simp [Manager.request, requestWithSecret, hsec]

/-- A `request` that returns an error leaves `ACCESS_TOKEN_STORAGE`
exactly as it was. -/
theorem request_error_token_unchanged (m : Manager) (env : RequestEnv)
    (s : ProcState) (h : ∃ e, (m.request env s).result = .error e) :
    (m.request env s).state.access_token_storage = s.access_token_storage := by
  obtain ⟨e, he⟩ := h
  obtain ⟨chk, sgnow, sres, pres, tnow, xres⟩ := env
  rcases hsec : get_not_expired_client_secret chk s with _ | sec <;>
    rcases sres with e1 | sec2 <;> rcases pres with e2 | u <;>
    rcases xres with e3 | body <;>
      simp_all [Manager.request, requestWithSecret, hsec]

/-- When no fresh secret is cached and the Signer succeeds, `request`
stores the new secret with its issue time into `CLIENT_SECRET_STORAGE`
(whatever happens afterwards). -/
theorem request_stores_new_secret (m : Manager) (env : RequestEnv)
    (s : ProcState) (sec : String)
    (hsec : get_not_expired_client_secret env.secret_check_now s = none)
    (hok : env.signer_result = .ok sec) :
    (m.request env s).state.client_secret_storage =
      ⟨some (sec, env.sign_now)⟩ := by
  obtain ⟨chk, sgnow, sres, pres, tnow, xres⟩ := env
  subst hok
  rcases pres with e2 | u <;> rcases xres with e3 | body <;>
    simp_all [Manager.request, requestWithSecret]

/-- A freshness-window helper: a stored secret younger than
`7 d - 600 s` is returned by `get_not_expired_client_secret`. -/
theorem get_secret_fresh (sec : String) (iat now : SystemTime)
    (s : ProcState)
    (hstore : s.client_secret_storage.val = some (sec, iat))
    (hle : iat ≤ now)
    (hwin : now - iat < (CLIENT_SECRET_EXP_DUR_SECS - 600) * NANOS) :
    get_not_expired_client_secret now s = some sec := by
  have hc1 : CLIENT_SECRET_EXP_DUR_SECS - 60 * 10 =
      CLIENT_SECRET_EXP_DUR_SECS - 600 := by norm_num
  simp only [get_not_expired_client_secret, hstore, duration_since_of_le hle,
    hc1]
  rw [if_pos hwin]

/-- A stored secret at least `7 d - 600 s` old is not returned. -/
theorem get_secret_stale (sec : String) (iat now : SystemTime)
    (s : ProcState)
    (hstore : s.client_secret_storage.val = some (sec, iat))
    (hwin : (CLIENT_SECRET_EXP_DUR_SECS - 600) * NANOS ≤ now - iat) :
    get_not_expired_client_secret now s = none := by
  have hpos : 0 < (CLIENT_SECRET_EXP_DUR_SECS - 600) * NANOS := by
    norm_num [CLIENT_SECRET_EXP_DUR_SECS, NANOS]
  have hle : iat ≤ now :=
    le_of_lt (tsub_pos_iff_lt.mp (lt_of_lt_of_le hpos hwin))
  have hc1 : CLIENT_SECRET_EXP_DUR_SECS - 60 * 10 =
      CLIENT_SECRET_EXP_DUR_SECS - 600 := by norm_num
  simp only [get_not_expired_client_secret, hstore, duration_since_of_le hle,
    hc1]
  rw [if_neg (Nat.not_lt.mpr hwin)]

/-! ## Claim theorems: manager facade and state scope -/

/-- A first `Manager` instance. -/
def mgrA : Manager := Manager.new 0

/-- A second, distinct `Manager` instance in the same process. -/
def mgrB : Manager := Manager.new 1

/-- A concrete token body for the state-scope counterexample. -/
def c1Body : ResponseSuccessfulBody :=
  { access_token := "tokA", token_type := "Bearer", expires_in := some 3600,
    scope := none }

/-- **C1 counterexample.** Manager state is not instance-scoped: with two
distinct instances over the same process state (the `static` storages of
`single.rs` are process-wide), a `set` on `mgrA` changes what `get_value`
returns on `mgrB` from `none` to `some "tokA"`. -/
theorem manager_state_not_instance_scoped :
    mgrA ≠ mgrB ∧
    mgrB.get_value initialState = none ∧
    mgrB.get_value (mgrA.set c1Body 0 initialState) = some "tokA" :=
  ⟨by decide, rfl, rfl⟩

/-- **C1 (amended).** All manager state is process-scoped, not
instance-scoped: every operation's effect is independent of the instance
it is invoked on (the methods never read `self`; the two cache slots are
process-wide statics shared by all instances), and the shared slots are
empty at first use. -/
theorem manager_state_process_scoped (m1 m2 : Manager) :
    (∀ s, m1.get_value s = m2.get_value s) ∧
    (∀ body t s, m1.set body t s = m2.set body t s) ∧
    (∀ s, m1.clear s = m2.clear s) ∧
    (∀ env s, m1.request env s = m2.request env s) ∧
    initialState.client_secret_storage.val = none ∧
    initialState.access_token_storage.val = none :=
  ⟨fun _ => rfl, fun _ _ _ => rfl, fun _ => rfl, fun _ _ => rfl, rfl, rfl⟩

/-- A facade / refresh-loop operation on the process state. -/
inductive Op where
  | setOp (body : ResponseSuccessfulBody) (t : IssuedAt)
  | clearOp
  | requestOp (env : RequestEnv)

/-- Apply one operation. -/
def applyOp (m : Manager) : Op → ProcState → ProcState
  | .setOp b t, s => m.set b t s
  | .clearOp, s => m.clear s
  | .requestOp env, s => (m.request env s).state

/-- Apply a sequence of operations, left to right. -/
def applyOps (m : Manager) : List Op → ProcState → ProcState
  | [], s => s
  | op :: ops, s => applyOps m ops (applyOp m op s)

/-- The operation is neither a `set` nor a `request` that succeeds from
the given state. -/
def nonPopulating (m : Manager) : Op → ProcState → Prop
  | .setOp _ _, _ => False
  | .clearOp, _ => True
  | .requestOp env, s => ∃ e, (m.request env s).result = .error e

/-- Every operation along the sequence is non-populating from the state
it runs in. -/
def nonPopulatingList (m : Manager) : List Op → ProcState → Prop
  | [], _ => True
  | op :: ops, s => nonPopulating m op s ∧ nonPopulatingList m ops (applyOp m op s)

/-- An empty token slot stays empty under non-populating operations. -/
theorem applyOps_token_none (m : Manager) (ops : List Op) (s : ProcState)
    (hs : s.access_token_storage.val = none)
    (h : nonPopulatingList m ops s) :
    (applyOps m ops s).access_token_storage.val = none := by
  induction ops generalizing s with
  | nil => exact hs
  | cons op ops ih =>
    obtain ⟨h1, h2⟩ := h
    refine ih (applyOp m op s) ?_ h2
    cases op with
    | setOp b t => exact h1.elim
    | clearOp => rfl
    | requestOp env =>
      show ((m.request env s).state).access_token_storage.val = none
      rw [request_error_token_unchanged m env s h1]
      exact hs

/-- **C5.** `set(record, t)` makes `get_value` return
`record.access_token` immediately for every issue time `t` (freshness is
never consulted and no network action occurs — `get_value` is a pure read
of the token slot); `clear()` makes `get_value` return absent, durably
under any further sequence of operations that contains no `set` and no
successful `request`; and `get_value` is absent on a never-populated
state. -/
theorem facade_semantics (m : Manager) :
    (∀ body t s, m.get_value (m.set body t s) = some body.access_token) ∧
    (∀ s, m.get_value (m.clear s) = none) ∧
    (m.get_value initialState = none) ∧
    (∀ s ops, nonPopulatingList m ops (m.clear s) →
      m.get_value (applyOps m ops (m.clear s)) = none) := by
  refine ⟨fun _ _ _ => rfl, fun _ => rfl, rfl, fun s ops h => ?_⟩
  have hnone := applyOps_token_none m ops (m.clear s) rfl h
  simp [Manager.get_value, hnone]

/-- Oracle environment of a failing `request` (the Signer rejects). -/
def c5Env : RequestEnv :=
  { secret_check_now := 0, sign_now := 0, signer_result := .error "boom",
    provider_result := .ok (), token_now := 0,
    exchange_result := .error "unreached" }

/-- **C5 witness.** Applies `facade_semantics` to a concrete sequence:
after `clear`, another `clear` and a failing `request` still leave
`get_value` absent. -/
theorem facade_semantics_witness :
    Manager.get_value (Manager.new 0)
      (applyOps (Manager.new 0) [Op.clearOp, Op.requestOp c5Env]
        (Manager.clear (Manager.new 0) initialState)) = none :=
  (facade_semantics (Manager.new 0)).2.2.2 initialState
    [Op.clearOp, Op.requestOp c5Env]
    ⟨True.intro, ⟨.ClientSecretCreateFailed "boom", rfl⟩, True.intro⟩

/-- **C2.** `request` is atomic with respect to the Token Cache: on every
error return the token slot is exactly as before the call; and when the
Signer was freshly invoked and succeeded before a later-stage failure, the
new assertion remains stored with its issue time and is reused (the Signer
is not invoked) by any subsequent `request` whose check falls within the
assertion's freshness window. -/
theorem request_atomicity (m : Manager) (env : RequestEnv) (s : ProcState)
    (herr : ∃ e, (m.request env s).result = .error e) :
    ((m.request env s).state.access_token_storage = s.access_token_storage) ∧
    (∀ sec, get_not_expired_client_secret env.secret_check_now s = none →
      env.signer_result = .ok sec →
      (m.request env s).state.client_secret_storage =
        ⟨some (sec, env.sign_now)⟩ ∧
      (∀ env2 : RequestEnv, env.sign_now ≤ env2.secret_check_now →
        env2.secret_check_now - env.sign_now <
          (CLIENT_SECRET_EXP_DUR_SECS - 600) * NANOS →
        (m.request env2 (m.request env s).state).signer_invoked = false)) := by
  refine ⟨request_error_token_unchanged m env s herr, ?_⟩
  intro sec hsec hok
  have hstore := request_stores_new_secret m env s sec hsec hok
  refine ⟨hstore, fun env2 hle hwin => ?_⟩
  have hfresh : get_not_expired_client_secret env2.secret_check_now
      (m.request env s).state = some sec := by
    refine get_secret_fresh sec env.sign_now env2.secret_check_now _ ?_ hle hwin
    rw [hstore]
  rw [request_signer_invoked_iff, hfresh]
  rfl

/-- Oracle environment whose Signer succeeds but whose provider
construction fails. -/
def c2Env : RequestEnv :=
  { secret_check_now := 0, sign_now := 5, signer_result := .ok "assert",
    provider_result := .error "bad provider", token_now := 7,
    exchange_result := .error "unreached" }

/-- A follow-up request environment checking the secret at time `6`. -/
def c2Env2 : RequestEnv :=
  { secret_check_now := 6, sign_now := 6, signer_result := .ok "assert2",
    provider_result := .ok (), token_now := 8,
    exchange_result := .error "network down" }

/-- **C2 witness.** Applies `request_atomicity` to a provider-stage
failure on the initial state: the token slot is untouched, the fresh
assertion is cached, and the follow-up request one nanosecond later does
not invoke the Signer. -/
theorem request_atomicity_witness :
    ((Manager.new 0).request c2Env initialState).state.access_token_storage =
      initialState.access_token_storage ∧
    ((Manager.new 0).request c2Env initialState).state.client_secret_storage =
      ⟨some ("assert", 5)⟩ ∧
    ((Manager.new 0).request c2Env2
      ((Manager.new 0).request c2Env initialState).state).signer_invoked =
      false := by
  have h := request_atomicity (Manager.new 0) c2Env initialState
    ⟨.OauthProviderMakeFailed "bad provider", rfl⟩
  have h2 := h.2 "assert" rfl rfl
  exact ⟨h.1, h2.1, h2.2 c2Env2 (by norm_num [c2Env, c2Env2])
    (by norm_num [CLIENT_SECRET_EXP_DUR_SECS, NANOS, c2Env, c2Env2])⟩

/-- **C6.** Across two `request` calls where the second's freshness check
happens within `7 d - 600 s` of the assertion the first call would create
(Signer succeeding), the Signer runs at most once in total; and once the
window has elapsed, a further `request` on the resulting state invokes
the Signer again. -/
theorem signer_invocation_count (m : Manager) (env1 env2 : RequestEnv)
    (s : ProcState) (sec : String)
    (hok : env1.signer_result = .ok sec)
    (hmono : env1.sign_now ≤ env2.secret_check_now)
    (hwin : env2.secret_check_now - env1.sign_now <
      (CLIENT_SECRET_EXP_DUR_SECS - 600) * NANOS) :
    ((cond (m.request env1 s).signer_invoked 1 0) +
      (cond (m.request env2 (m.request env1 s).state).signer_invoked 1 0)
      ≤ 1) ∧
    (get_not_expired_client_secret env1.secret_check_now s = none →
      ∀ env3 : RequestEnv,
        (CLIENT_SECRET_EXP_DUR_SECS - 600) * NANOS ≤
          env3.secret_check_now - env1.sign_now →
        (m.request env3 (m.request env1 s).state).signer_invoked = true) := by
  constructor
  · rcases hsec1 : get_not_expired_client_secret env1.secret_check_now s with
      _ | oldsec
    · -- no fresh assertion: call 1 invokes the Signer and stores at sign_now
      have h1 : (m.request env1 s).signer_invoked = true := by
        rw [request_signer_invoked_iff, hsec1]; rfl
      have hstore := request_stores_new_secret m env1 s sec hsec1 hok
      have hfresh : get_not_expired_client_secret env2.secret_check_now
          (m.request env1 s).state = some sec := by
        refine get_secret_fresh sec env1.sign_now env2.secret_check_now _ ?_
          hmono hwin
        rw [hstore]
      have h2 : (m.request env2 (m.request env1 s).state).signer_invoked
          = false := by
        rw [request_signer_invoked_iff, hfresh]; rfl
      rw [h1, h2]
      norm_num
    · -- call 1 reuses; at most the second call invokes
      have h1 : (m.request env1 s).signer_invoked = false := by
        rw [request_signer_invoked_iff, hsec1]; rfl
      rw [h1]
      cases (m.request env2 (m.request env1 s).state).signer_invoked <;> simp
  · intro hsec1 env3 helapsed
    have hstore := request_stores_new_secret m env1 s sec hsec1 hok
    have hstale : get_not_expired_client_secret env3.secret_check_now
        (m.request env1 s).state = none := by
      refine get_secret_stale sec env1.sign_now env3.secret_check_now _ ?_
        helapsed
      rw [hstore]
    rw [request_signer_invoked_iff, hstale]
    rfl

/-- A first request environment signing at time `0`. -/
def c6Env1 : RequestEnv :=
  { secret_check_now := 0, sign_now := 0, signer_result := .ok "assert",
    provider_result := .ok (), token_now := 1,
    exchange_result := .ok ⟨"tok", "Bearer", some 3600, none⟩ }

/-- A second request environment checking one hour after the first. -/
def c6Env2 : RequestEnv :=
  { secret_check_now := 3600 * NANOS, sign_now := 3600 * NANOS,
    signer_result := .ok "assert2", provider_result := .ok (),
    token_now := 3600 * NANOS, exchange_result := .error "network down" }

/-- **C6 witness.** Applies `signer_invocation_count` to two concrete
back-to-back requests an hour apart starting from the empty state. -/
theorem signer_invocation_count_witness :
    (cond ((Manager.new 0).request c6Env1 initialState).signer_invoked 1 0) +
      (cond ((Manager.new 0).request c6Env2
        ((Manager.new 0).request c6Env1 initialState).state).signer_invoked
        1 0) ≤ 1 :=
  (signer_invocation_count (Manager.new 0) c6Env1 c6Env2 initialState
    "assert" rfl (Nat.zero_le _)
    (by norm_num [CLIENT_SECRET_EXP_DUR_SECS, NANOS, c6Env1, c6Env2])).1

/-- **C7.** The `run` loop follows its fixed schedule: a fresh Token Cache
means a 180 s sleep with no request; a successful `request` is followed by
the callback under a 6 s timeout and a 180 s sleep; a failed `request` by
the callback under a 3 s timeout and exactly a 5 s sleep (fixed,
non-exponential backoff); a callback timeout never alters the loop's
behaviour; and every iteration, for every `n`, ends in a sleep and hands
control to iteration `n + 1` — there is no terminal state and the retry
count is unbounded. -/
theorem run_schedule (m : Manager) (env : IterEnv) (s : ProcState) :
    ((get_not_expired_access_token env.check_now s).isSome = true →
      m.runStep env s = (s, [.sleepFor 180])) ∧
    (get_not_expired_access_token env.check_now s = none →
      ∀ body t, (m.request env.req s).result = .ok (body, t) →
      m.runStep env s = ((m.request env.req s).state,
        [.requestCall, .callbackInvoke true 6, .sleepFor 180])) ∧
    (get_not_expired_access_token env.check_now s = none →
      ∀ e, (m.request env.req s).result = .error e →
      m.runStep env s = ((m.request env.req s).state,
        [.requestCall, .callbackInvoke false 3, .sleepFor 5])) ∧
    (∀ b : Bool, m.runStep { env with cb_timed_out := b } s = m.runStep env s) ∧
    (∀ (envs : Nat → IterEnv) (n : Nat), ∃ secs,
      (m.runEvents envs s n).getLast? = some (.sleepFor secs)) := by
  refine ⟨?_, ?_, ?_, ?_, ?_⟩
  · intro h
    unfold Manager.runStep
    rw [if_pos h]
  · intro h body t hok
    unfold Manager.runStep
    rw [if_neg (by simp [h])]
    simp only [hok]
  · intro h e herr
    unfold Manager.runStep
    rw [if_neg (by simp [h])]
    simp only [herr]
  · intro b
    rfl
  · intro envs n
    show ∃ secs, ((m.runStep (envs n) (m.runTrace envs s n)).2).getLast? =
      some (.sleepFor secs)
    unfold Manager.runStep
    split_ifs with hc
    · exact ⟨180, rfl⟩
    · rcases hres : (m.request (envs n).req (m.runTrace envs s n)).result with
        e | pr
      · exact ⟨5, by simp [hres]⟩
      · exact ⟨180, by simp [hres]⟩

/-- A token body cached forever (no `expires_in`), for the loop witness. -/
def c7Body : ResponseSuccessfulBody :=
  { access_token := "tok7", token_type := "Bearer", expires_in := none,
    scope := none }

/-- A loop-iteration environment checking at time `0`. -/
def c7Iter : IterEnv :=
  { check_now := 0,
    req := { secret_check_now := 0, sign_now := 0, signer_result := .ok "a",
             provider_result := .ok (), token_now := 0,
             exchange_result := .ok c7Body },
    cb_timed_out := false }

/-- A state whose token cache is fresh at any time. -/
def c7State : ProcState := ⟨⟨none⟩, ⟨some (c7Body, 0)⟩⟩

/-- **C7 witness.** Applies `run_schedule` to a fresh-token state: the
iteration performs no request and sleeps 180 s. -/
theorem run_schedule_witness :
    (Manager.new 0).runStep c7Iter c7State = (c7State, [.sleepFor 180]) :=
  (run_schedule (Manager.new 0) c7Iter c7State).1 rfl

/-- The clamped duration equals `min requested cap`. -/
theorem clampExpirationDur_eq_min (maxs defs req : Nat) :
    clampExpirationDur maxs defs (some req) = min req maxs := by
  simp only [clampExpirationDur, Option.getD_some]
  split_ifs <;> omega

/-- **C9.** Each signer's `create` never rejects a request because its
requested `expiration_time_dur` exceeds the family's hard cap (success
depends only on the key/encode oracles, identically to a request with no
duration at all); it silently clamps, so the produced claims satisfy
`exp = iat + min(requested, cap)` — cap 180 days for Search Ads, 6 days
for App Store Connect, 15777000 s for Sign-in-with-Apple. -/
theorem create_clamps_expiration
    (key : Except String Unit) (enc : Bool) (iss cid : String)
    (sc : Option (List String)) (iat : Int) (req1 req2 req3 : Nat)
    (h1 : searchAds.EXPIRATION_TIME_DURATION_SECONDS_MAX < req1)
    (h2 : appStoreConnect.EXPIRATION_TIME_DURATION_SECONDS_MAX < req2)
    (h3 : siwa.EXPIRATION_TIME_DURATION_SECONDS_MAX < req3) :
    ((searchAds.create key enc iss cid iat (some req1)).isOk =
        (searchAds.create key enc iss cid iat none).isOk ∧
      ∀ c, searchAds.create key enc iss cid iat (some req1) = .ok c →
        c.exp = iat +
          (min req1 searchAds.EXPIRATION_TIME_DURATION_SECONDS_MAX : Nat)) ∧
    ((appStoreConnect.create key enc iss sc iat (some req2)).isOk =
        (appStoreConnect.create key enc iss sc iat none).isOk ∧
      ∀ c, appStoreConnect.create key enc iss sc iat (some req2) = .ok c →
        c.exp = iat +
          (min req2 appStoreConnect.EXPIRATION_TIME_DURATION_SECONDS_MAX : Nat)) ∧
    ((siwa.create key enc iss cid iat (some req3)).isOk =
        (siwa.create key enc iss cid iat none).isOk ∧
      ∀ c, siwa.create key enc iss cid iat (some req3) = .ok c →
        c.exp = iat +
          (min req3 siwa.EXPIRATION_TIME_DURATION_SECONDS_MAX : Nat)) := by
  refine ⟨⟨?_, ?_⟩, ⟨?_, ?_⟩, ⟨?_, ?_⟩⟩
  · rcases key with e | u
    · rfl
    · cases u; cases enc <;> rfl
  · intro c hc
    rcases key with e | u
    · exact absurd hc (by simp [searchAds.create])
    · cases u
      cases enc
      · exact absurd hc (by simp [searchAds.create])
      · have hc2 : (⟨iss, iat, iat + (clampExpirationDur
              searchAds.EXPIRATION_TIME_DURATION_SECONDS_MAX
              searchAds.EXPIRATION_TIME_DURATION_SECONDS_MAX
              (some req1) : Nat),
            "https://appleid.apple.com", cid⟩ : SubClaims)
            = c := Except.ok.inj hc
        rw [← hc2, clampExpirationDur_eq_min]
  · rcases key with e | u
    · rfl
    · cases u; cases enc <;> rfl
  · intro c hc
    rcases key with e | u
    · exact absurd hc (by simp [appStoreConnect.create])
    · cases u
      cases enc
      · exact absurd hc (by simp [appStoreConnect.create])
      · have hc2 : (⟨iss, iat, iat + (clampExpirationDur
              appStoreConnect.EXPIRATION_TIME_DURATION_SECONDS_MAX
              appStoreConnect.EXPIRATION_TIME_DURATION_SECONDS_MAX_FOR_MOST_REQUESTS
              (some req2) : Nat),
            "appstoreconnect-v1", sc⟩ : ScopeClaims)
            = c := Except.ok.inj hc
        rw [← hc2, clampExpirationDur_eq_min]
  · rcases key with e | u
    · rfl
    · cases u; cases enc <;> rfl
  · intro c hc
    rcases key with e | u
    · exact absurd hc (by simp [siwa.create])
    · cases u
      cases enc
      · exact absurd hc (by simp [siwa.create])
      · have hc2 : (⟨iss, iat, iat + (clampExpirationDur
              siwa.EXPIRATION_TIME_DURATION_SECONDS_MAX
              siwa.EXPIRATION_TIME_DURATION_SECONDS_MAX
              (some req3) : Nat),
            "https://appleid.apple.com", cid⟩ : SubClaims)
            = c := Except.ok.inj hc
        rw [← hc2, clampExpirationDur_eq_min]

/-- **C9 witness.** Applies `create_clamps_expiration` to a Search Ads
request for `20000000 s` (beyond the 15552000 s cap): success matches the
no-duration call and the produced `exp` is `iat + cap`. -/
theorem create_clamps_expiration_witness :
    (searchAds.create (.ok ()) true "team" "client" 0 (some 20000000)).isOk =
      (searchAds.create (.ok ()) true "team" "client" 0 none).isOk ∧
    (searchAds.create (.ok ()) true "team" "client" 0
      (some 20000000)).toOption.map SubClaims.exp = some 15552000 := by
  have h := create_clamps_expiration (.ok ()) true "team" "client" none 0
    20000000 600000 16000000
    (by norm_num [searchAds.EXPIRATION_TIME_DURATION_SECONDS_MAX])
    (by norm_num [appStoreConnect.EXPIRATION_TIME_DURATION_SECONDS_MAX])
    (by norm_num [siwa.EXPIRATION_TIME_DURATION_SECONDS_MAX])
  exact ⟨h.1.1, by decide⟩

end AppleRs
